import Mathlib

/-!
Verification development for the tap-optiply extraction client.

The definitions below are a shallow embedding of the Python source:

* `retry_with_backoff` embeds the decorator in `tap_optiply/client.py`
  (lines 18-64): the mocked behaviour of the wrapped function is given as a
  finite list of attempt outcomes, and the loop is run over that list.
* `get_records_run` embeds the pagination loop of `OptiplyAPI.get_records`
  (client.py lines 146-165); the server is modelled as the list of page
  responses returned by successive requests, and the parsed query of a
  `links.next` URL is modelled as an association list of its first values
  (`urllib.parse.parse_qs` followed by `value[0]`).
* `get_products_run` embeds the fixed-page-size loop of
  `OptiplyAPI.get_products` (client.py lines 280-318).
* `update_access_token`, `is_token_valid`, `get_auth_headers` embed
  `OptiplyAuthenticator` in `tap_optiply/auth.py` (lines 74-147).
* `update_token_expiry` embeds the expiry stored by
  `OptiplyAPI._update_token` (client.py line 197).
* `transform_record` embeds the flattening step of
  `TapOptiplyStream.get_records` (streams.py lines 70-74).

Timestamps are modelled as `Int` (Unix seconds), HTTP statuses as `Nat`,
and Python dicts as insertion-ordered association lists with unique keys.
-/

/-- Association-list lookup: the value at the first occurrence of key `k`,
modelling `d[k]` / `d.get(k)` on a Python dict. -/
def lookupKey {β : Type} (k : String) : List (String × β) → Option β
  | [] => none
  | (k', v) :: rest => if k' = k then some v else lookupKey k rest

/-- Association-list assignment, modelling `d[k] = v` on a Python dict:
the first occurrence of `k` is overwritten in place (insertion order kept),
and a missing key is appended at the end. -/
def setKey {β : Type} : List (String × β) → String → β → List (String × β)
  | [], k, v => [(k, v)]
  | (k', v') :: rest, k, v =>
      if k' = k then (k', v) :: rest else (k', v') :: setKey rest k v

/-- Errors that an attempt of the wrapped function can raise: an
`requests.exceptions.HTTPError` carrying a status code, or a
`requests.exceptions.Timeout`. -/
inductive ReqError : Type
  | http (status : Nat)
  | timeout
deriving DecidableEq, Repr

/-- Outcome of one attempt of the function wrapped by `retry_with_backoff`:
either it returns a response or it raises an error. -/
inductive Attempt (α : Type) : Type
  | ok (a : α)
  | err (e : ReqError)
deriving DecidableEq, Repr

/-- Final outcome of a run of the retry loop: the wrapped call returned,
the last error was re-raised, or the mocked list of attempt outcomes was
exhausted while the loop still wanted to try again. -/
inductive RunOutcome (α : Type) : Type
  | success (a : α)
  | failure (e : ReqError)
  | exhausted
deriving DecidableEq, Repr

/-- Trace of a run of the retry loop: its outcome, the number of attempts
of the wrapped function, and the sleep durations (seconds) of the retries
in order. -/
structure RunTrace (α : Type) : Type where
  outcome : RunOutcome α
  attempts : Nat
  delays : List Nat
deriving DecidableEq, Repr

/-- Loop body of `retry_with_backoff` (client.py lines 28-62), with the
mutable locals `delay`, `retry_count` and `gateway_timeout_count` threaded
explicitly and the successive behaviours of the wrapped function supplied
as a list.  On an `HTTPError` with status 504 the gateway counter is
incremented and, while it is still at most `max504`, the call is retried
after `delay` seconds and `delay` doubles; once the gateway counter
exceeds `max504`, control falls through to the general counter, which
also handles every other `HTTPError` and every `Timeout` and retries
while `retry_count + 1 < maxRetries`.  When neither counter allows a
retry the last exception is re-raised. -/
def retryGo {α : Type} (maxRetries max504 : Nat) :
    Nat → Nat → Nat → Nat → List Nat → List (Attempt α) → RunTrace α
  | _, _, _, att, ds, [] => ⟨.exhausted, att, ds⟩
  | _, _, _, att, ds, .ok a :: _ => ⟨.success a, att + 1, ds⟩
  | delay, rc, gtc, att, ds, .err (.http s) :: rest =>
      if s = 504 then
        if gtc + 1 ≤ max504 then
          retryGo maxRetries max504 (delay * 2) rc (gtc + 1) (att + 1)
            (ds ++ [delay]) rest
        else if rc + 1 < maxRetries then
          retryGo maxRetries max504 (delay * 2) (rc + 1) (gtc + 1) (att + 1)
            (ds ++ [delay]) rest
        else ⟨.failure (.http s), att + 1, ds⟩
      else
        if rc + 1 < maxRetries then
          retryGo maxRetries max504 (delay * 2) (rc + 1) gtc (att + 1)
            (ds ++ [delay]) rest
        else ⟨.failure (.http s), att + 1, ds⟩
  | delay, rc, gtc, att, ds, .err .timeout :: rest =>
      if rc + 1 < maxRetries then
        retryGo maxRetries max504 (delay * 2) (rc + 1) gtc (att + 1)
          (ds ++ [delay]) rest
      else ⟨.failure .timeout, att + 1, ds⟩

/-- The decorator `retry_with_backoff(max_retries, initial_delay,
max_504_retries)` of client.py lines 18-64, applied to a function whose
successive attempt outcomes are the given list.  Counters start at zero
and the delay starts at `initialDelay`. -/
def retry_with_backoff {α : Type} (maxRetries initialDelay max504 : Nat)
    (attempts : List (Attempt α)) : RunTrace α :=
  retryGo maxRetries max504 initialDelay 0 0 0 [] attempts

/-- `OptiplyAPI._make_request` as wrapped at client.py line 560:
`@retry_with_backoff(max_retries=3, initial_delay=1.0)`, with
`max_504_retries` left at its default of 2. -/
def make_request_wrapped {α : Type} (attempts : List (Attempt α)) : RunTrace α :=
  retry_with_backoff 3 1 2 attempts

/-- Value stored in the query-parameter dict of `get_records`: the code
mixes strings (values parsed from a `links.next` URL) and integers (the
defaults `50` and `0`). -/
inductive PVal : Type
  | strV (s : String)
  | intV (n : Int)
deriving DecidableEq, Repr

/-- The `params` dict passed to a page request, as an insertion-ordered
association list. -/
def Params : Type := List (String × PVal)

/-- One page response, as consumed by the pagination loops: its `data`
list and, when the body carries a `links.next` URL, the parsed query of
that URL (`urllib.parse.parse_qs` followed by taking `value[0]` per key)
as an association list. -/
structure Page (α : Type) : Type where
  data : List α
  next : Option (List (String × String))
deriving Repr

/-- The `links.next` update of `get_records` (client.py lines 163-165):
`for key, value in query_params.items(): params[key] = value[0]`. -/
def updParams (ps : Params) (qp : List (String × String)) : Params :=
  qp.foldl (fun acc kv => setKey acc kv.1 (PVal.strV kv.2)) ps

/-- The `while True` pagination loop of `OptiplyAPI.get_records`
(client.py lines 146-165), run against a mocked list of page responses:
each iteration requests one page with the current `params`, yields the
page's `data` records, stops when `links.next` is absent, and otherwise
overwrites `params` with the parsed query of the next link and continues.
Returns the `params` used by each request in order, and `some` of the
yielded records, or `none` when the mocked page list is exhausted while
the loop would request again. -/
def get_records_run {α : Type} (ps : Params) :
    List (Page α) → List Params × Option (List α)
  | [] => ([], none)
  | p :: rest =>
      match p.next with
      | none => ([ps], some p.data)
      | some qp =>
          let r := get_records_run (updParams ps qp) rest
          (ps :: r.1, r.2.map (p.data ++ ·))

/-- Python `str.capitalize()` on a word: first character uppercased, the
remainder lowercased (client.py line 135 applies it to each part after
the first). -/
def pyCapitalize : List Char → List Char
  | [] => []
  | c :: cs => c.toUpper :: cs.map Char.toLower

/-- Python `str.split('_')` (client.py line 134): splits on every
underscore, keeping empty parts, and yields one (possibly empty) part for
the empty string. -/
def splitUnderscore : List Char → List (List Char)
  | [] => [[]]
  | c :: cs =>
      if c = '_' then [] :: splitUnderscore cs
      else
        match splitUnderscore cs with
        | [] => [[c]]
        | w :: ws => (c :: w) :: ws

/-- Endpoint-name derivation of `get_records` (client.py lines 134-135):
`parts = stream_name.split('_')`;
`endpoint = parts[0] + ''.join(word.capitalize() for word in parts[1:])`. -/
def toCamel (s : List Char) : List Char :=
  match splitUnderscore s with
  | [] => []
  | w :: ws => w ++ (ws.map pyCapitalize).flatten

/-- The URL built by `get_records` (client.py line 136):
`f"{self.base_url}/{endpoint}"`. -/
def endpointUrl (baseUrl : String) (streamName : String) : String :=
  baseUrl ++ "/" ++ String.mk (toCamel streamName.toList)

/-- Assignment of a default value: `if k not in params: params[k] = v`. -/
def withDefault (ps : Params) (k : String) (v : PVal) : Params :=
  match lookupKey k ps with
  | some _ => ps
  | none => setKey ps k v

/-- Parameter defaulting of `get_records` (client.py lines 138-144):
`page[limit]` defaults to `50` and `page[offset]` to `0` when the caller
did not supply them. -/
def init_params (ps : Params) : Params :=
  withDefault (withDefault ps "page[limit]" (PVal.intV 50))
    "page[offset]" (PVal.intV 0)

/-- `OptiplyAPI.get_records` (client.py lines 123-165) end to end against
a mocked page list: the endpoint URL derived from the stream name, and
the pagination run started from the defaulted parameters. -/
def get_records {α : Type} (baseUrl streamName : String) (ps : Params)
    (pages : List (Page α)) : String × (List Params × Option (List α)) :=
  (endpointUrl baseUrl streamName, get_records_run (init_params ps) pages)

/-- The `while True` loop of `OptiplyAPI.get_products` (client.py lines
289-318), run against a mocked list of page responses with
`page_size = 25`: the request at offset `off` returns the head page; its
records are yielded, and the loop stops when the page holds strictly
fewer than 25 records, else continues at offset `off + 25`.  Returns the
`page[offset]` value of each request in order, and `some` of the yielded
records, or `none` when the mocked page list is exhausted while the loop
would request again.  The `next` field of the pages is never consulted. -/
def get_products_run {α : Type} (off : Nat) :
    List (Page α) → List Nat × Option (List α)
  | [] => ([], none)
  | p :: rest =>
      if p.data.length < 25 then ([off], some p.data)
      else
        let r := get_products_run (off + 25) rest
        (off :: r.1, r.2.map (p.data ++ ·))

/-- Token state of `OptiplyAuthenticator` (auth.py lines 21-22): the
held access token and its absolute expiry instant, either possibly
absent.  A Python-falsy token (None or the empty string) is modelled as
`none`. -/
structure AuthState : Type where
  accessToken : Option String
  tokenExpiresAt : Option Int
deriving DecidableEq, Repr

/-- `OptiplyAuthenticator.is_token_valid` (auth.py lines 92-106): false
without a token or without an expiry; otherwise
`not ((self._token_expires_at - now) < 300)`. -/
def is_token_valid (s : AuthState) (now : Int) : Bool :=
  match s.accessToken with
  | none => false
  | some _ =>
      match s.tokenExpiresAt with
      | none => false
      | some ea => !(ea - now < 300)

/-- `OptiplyAuthenticator.update_access_token` (auth.py lines 139-141) on
a successful token response: the new token is stored and the expiry
becomes `now + expires_in`, with no margin subtracted at storage time. -/
def update_access_token (tok : String) (expiresIn : Int) (now : Int) :
    AuthState :=
  { accessToken := some tok, tokenExpiresAt := some (now + expiresIn) }

/-- The refresh condition of `OptiplyAuthenticator.get_auth_headers`
(auth.py lines 80-85): refresh when no token is held
(`if not self._access_token`) or the token is no longer valid
(`elif not self.is_token_valid()`). -/
def refresh_triggered (s : AuthState) (now : Int) : Bool :=
  s.accessToken.isNone || !(is_token_valid s now)

/-- `OptiplyAuthenticator.get_auth_headers` (auth.py lines 74-90): the
token-response contents `fresh` that a refresh would store are supplied
as arguments; the call refreshes exactly when `refresh_triggered`, then
returns the new state and the Bearer headers. -/
def get_auth_headers (s : AuthState) (now : Int) (fresh : String × Int) :
    AuthState × List (String × String) :=
  let s1 := if refresh_triggered s now
    then update_access_token fresh.1 fresh.2 now else s
  (s1,
    [("Authorization", "Bearer " ++ (s1.accessToken.getD "")),
     ("Content-Type", "application/vnd.api+json")])

/-- The absolute expiry stored by `OptiplyAPI._update_token`
(client.py line 197): `time.time() + token_data["expires_in"] - 60`, a
60-second safety margin subtracted at storage time. -/
def update_token_expiry (now expiresIn : Int) : Int :=
  now + expiresIn - 60

/-- JSON-like values of a raw JSON:API record: strings, integers and
nested objects modelled as association lists. -/
inductive JVal : Type
  | str (s : String)
  | int (n : Int)
  | obj (fields : List (String × JVal))

/-- The flattening step of `TapOptiplyStream.get_records` (streams.py
lines 70-74): when the record carries an `attributes` object containing
`updatedAt`, the top-level `updatedAt` is assigned that value; otherwise
the record is yielded unchanged. -/
def transform_record (r : List (String × JVal)) : List (String × JVal) :=
  match lookupKey "attributes" r with
  | some (JVal.obj attrs) =>
      match lookupKey "updatedAt" attrs with
      | some v => setKey r "updatedAt" v
      | none => r
  | _ => r

/-- Claim C1, counterexample: with `max_retries = 3` and
`max_504_retries = 2`, an endpoint that raises 504 on every attempt is
retried 4 times (5 attempts, sleep sequence 1, 2, 4, 8) before the error
propagates — not exactly `max_504_retries = 2` times as the claim
states; and the general-counter retries continue the shared doubling
delay (4, 8) instead of an independent delay sequence. -/
theorem C1_counterexample :
    make_request_wrapped (List.replicate 5 (.err (.http 504)) : List (Attempt Nat))
      = ⟨.failure (.http 504), 5, [1, 2, 4, 8]⟩
    ∧ (make_request_wrapped (List.replicate 5 (.err (.http 504)) : List (Attempt Nat))).attempts ≠ 2 + 1 := by
  refine ⟨rfl, ?_⟩
  decide

/-- Claim C1, amended: under `retry_with_backoff(max_retries=3,
initial_delay=1.0, max_504_retries=2)`, an all-504 endpoint is retried
`max_504_retries` times under the gateway counter and then, because the
exhausted gateway branch falls through to the general counter,
`max_retries - 1` further times under it — 4 retries in all, after which
the last 504 propagates; a first-attempt 504 followed by a success
returns the successful response with exactly one retry; and the two
counters share one delay variable that doubles on every retry (sleeps
1, 2, 4, 8), rather than each counter owning its own delay sequence. -/
theorem C1_theorem :
    (∀ rest : List (Attempt Nat),
      make_request_wrapped (List.replicate 5 (.err (.http 504)) ++ rest)
        = ⟨.failure (.http 504), 5, [1, 2, 4, 8]⟩)
    ∧ (∀ (α : Type) (r : α) (rest : List (Attempt α)),
      make_request_wrapped (.err (.http 504) :: .ok r :: rest)
        = ⟨.success r, 2, [1]⟩) := by
  constructor
  · intro rest
    rfl
  · intro α r rest
    rfl

/-- Claim C2, counterexample: a request that receives 401 on every
attempt is retried twice (3 attempts) by the general retry loop before
the error surfaces, not "retried exactly once"; no token refresh is
involved anywhere in this path (`_make_request` re-raises 401 without
calling `_update_token` or `_refresh_token_if_needed`). -/
theorem C2_counterexample :
    make_request_wrapped (List.replicate 3 (.err (.http 401)) : List (Attempt Nat))
      = ⟨.failure (.http 401), 3, [1, 2]⟩
    ∧ (make_request_wrapped (List.replicate 3 (.err (.http 401)) : List (Attempt Nat))).attempts ≠ 1 + 1 := by
  refine ⟨rfl, ?_⟩
  decide

/-- Claim C2, amended: a 401 response receives no special handling and
forces no token refresh — `_make_request` re-raises it and
`retry_with_backoff` retries the identical request under the general
transient counter, up to `max_retries - 1 = 2` times, before the error
propagates; a first-page 401 followed by a 200 completes with the 200
response after exactly one retry of the identical request and zero
refresh calls. -/
theorem C2_theorem :
    (∀ (α : Type) (r : α) (rest : List (Attempt α)),
      make_request_wrapped (.err (.http 401) :: .ok r :: rest)
        = ⟨.success r, 2, [1]⟩)
    ∧ (∀ rest : List (Attempt Nat),
      make_request_wrapped (List.replicate 3 (.err (.http 401)) ++ rest)
        = ⟨.failure (.http 401), 3, [1, 2]⟩) := by
  constructor
  · intro α r rest
    rfl
  · intro rest
    rfl

/-- Claim C3, counterexample: a first-attempt 429 followed by a success
does not propagate the 429 — the request is attempted again (2 attempts,
one 1-second backoff retry) and the second attempt's response is
returned, contradicting "the 429 error propagates to the caller without
any further attempt". -/
theorem C3_counterexample :
    make_request_wrapped ([.err (.http 429), .ok (7 : Nat)])
      = ⟨.success 7, 2, [1]⟩
    ∧ (make_request_wrapped ([.err (.http 429), .ok (7 : Nat)])).attempts ≠ 1 := by
  refine ⟨rfl, ?_⟩
  decide

/-- Claim C3, amended: a 429 response is retried exactly like any other
non-504 `HTTPError`, under the general transient counter: a 429 followed
by a success yields the successful response after one retry, and a
persistent 429 is retried `max_retries - 1 = 2` times (3 attempts,
sleeps 1 and 2 seconds) before the last 429 propagates. -/
theorem C3_theorem :
    (∀ (α : Type) (r : α) (rest : List (Attempt α)),
      make_request_wrapped (.err (.http 429) :: .ok r :: rest)
        = ⟨.success r, 2, [1]⟩)
    ∧ (∀ rest : List (Attempt Nat),
      make_request_wrapped (List.replicate 3 (.err (.http 429)) ++ rest)
        = ⟨.failure (.http 429), 3, [1, 2]⟩) := by
  constructor
  · intro α r rest
    rfl
  · intro rest
    rfl

/-- Assigning key `k` makes lookup of `k` return the assigned value. -/
theorem lookupKey_setKey_self {β : Type} (ps : List (String × β)) (k : String) (v : β) :
    lookupKey k (setKey ps k v) = some v := by
  induction ps with
  | nil => simp [setKey, lookupKey]
  | cons hd t ih =>
    obtain ⟨k', v'⟩ := hd
    by_cases hk : k' = k
    · subst hk
      simp [setKey, lookupKey]
    · simp [setKey, lookupKey, hk, ih]

/-- Assigning key `k` leaves lookup of any other key unchanged. -/
theorem lookupKey_setKey_ne {β : Type} (ps : List (String × β)) (k k₁ : String) (v : β)
    (hne : k₁ ≠ k) : lookupKey k₁ (setKey ps k v) = lookupKey k₁ ps := by
  induction ps with
  | nil => simp [setKey, lookupKey, hne.symm]
  | cons hd t ih =>
    obtain ⟨k', v'⟩ := hd
    by_cases hk : k' = k
    · subst hk
      simp [setKey, lookupKey, hne.symm]
    · simp [setKey, lookupKey, hk, ih]

/-- The next-link parameter update leaves every key not named in the
parsed query untouched. -/
theorem lookupKey_updParams_not_mem :
    ∀ (qp : List (String × String)) (ps : Params) (k : String),
      k ∉ qp.map Prod.fst → lookupKey k (updParams ps qp) = lookupKey k ps := by
  intro qp
  induction qp with
  | nil =>
    intro ps k _
    rfl
  | cons kv t ih =>
    intro ps k h
    obtain ⟨k0, v0⟩ := kv
    rw [List.map_cons] at h
    simp only [List.mem_cons, not_or] at h
    have hstep : updParams ps ((k0, v0) :: t)
        = updParams (setKey ps k0 (PVal.strV v0)) t := rfl
    rw [hstep, ih _ _ h.2, lookupKey_setKey_ne _ _ _ _ h.1]

/-- The next-link parameter update stores, for every key of the parsed
query, that key's value from the link. -/
theorem lookupKey_updParams_mem :
    ∀ (qp : List (String × String)) (ps : Params) (k v : String),
      (qp.map Prod.fst).Nodup → (k, v) ∈ qp →
      lookupKey k (updParams ps qp) = some (PVal.strV v) := by
  intro qp
  induction qp with
  | nil =>
    intro ps k v _ hmem
    cases hmem
  | cons kv t ih =>
    intro ps k v hnd hmem
    obtain ⟨k0, v0⟩ := kv
    rw [List.map_cons, List.nodup_cons] at hnd
    have hstep : updParams ps ((k0, v0) :: t)
        = updParams (setKey ps k0 (PVal.strV v0)) t := rfl
    rcases List.mem_cons.mp hmem with heq | hmem'
    · injection heq with h1 h2
      subst h1
      subst h2
      rw [hstep, lookupKey_updParams_not_mem t _ _ hnd.1, lookupKey_setKey_self]
    · rw [hstep]
      exact ih _ _ _ hnd.2 hmem'

/-- Pagination run over a page list whose non-final pages all carry a
next link and whose final page does not: the records are the
concatenation of all pages' data. -/
theorem get_records_run_concat {α : Type} (lastP : Page α) (hlast : lastP.next = none) :
    ∀ (front : List (Page α)) (ps : Params),
      (∀ p ∈ front, (p.next).isSome) →
      (get_records_run ps (front ++ [lastP])).2
        = some ((front.map Page.data).flatten ++ lastP.data) := by
  intro front
  induction front with
  | nil =>
    intro ps _
    obtain ⟨d, nx⟩ := lastP
    simp only at hlast
    subst hlast
    simp [get_records_run]
  | cons p t ih =>
    intro ps hall
    have hp : (p.next).isSome := hall p (by simp)
    obtain ⟨d, nx⟩ := p
    obtain ⟨qp, hqp⟩ := Option.isSome_iff_exists.mp hp
    simp only at hqp
    subst hqp
    have ht : ∀ q ∈ t, (q.next).isSome := fun q hq => hall q (by simp [hq])
    simp [get_records_run, ih _ ht, List.append_assoc]

/-- Claim C4, confirmed: for every finite mocked page sequence whose last
page lacks `links.next` and whose earlier pages all carry one,
`OptiplyAPI.get_records` terminates and yields exactly the concatenation
of all pages' `data` records in page order — no record dropped,
duplicated or reordered. -/
theorem C4_theorem {α : Type} (ps : Params) (front : List (Page α)) (lastP : Page α)
    (hfront : ∀ p ∈ front, (p.next).isSome) (hlast : lastP.next = none) :
    (get_records_run ps (front ++ [lastP])).2
      = some (((front ++ [lastP]).map Page.data).flatten) := by
  rw [get_records_run_concat lastP hlast front ps hfront]
  simp

/-- Claim C4, witness: a two-page run (page 1 with records 1, 2 and a
next link, page 2 with record 3 and none) yields exactly 1, 2, 3. -/
theorem C4_witness :
    (get_records_run [] ([⟨[1, 2], some [("page[offset]", "2")]⟩, ⟨[3], none⟩]
      : List (Page Nat))).2 = some [1, 2, 3] := by
  have h := C4_theorem ([] : Params)
    ([⟨[1, 2], some [("page[offset]", "2")]⟩] : List (Page Nat))
    (⟨[3], none⟩ : Page Nat) (by simp) rfl
  simpa using h

/-- Claim C5, confirmed: in `OptiplyAPI.get_records`, a page without
`links.next` ends pagination immediately (no further request is made); a
page with `links.next` makes the next request use exactly the parameter
set obtained by folding the link's parsed query into the current
parameters; under that update every key present in the link takes its
value from the link, superseding the locally held value, and every key
absent from the link keeps its current value. -/
theorem C5_theorem {α : Type} :
    (∀ (ps : Params) (d : List α) (rest : List (Page α)),
      get_records_run ps ({ data := d, next := none } :: rest) = ([ps], some d))
    ∧ (∀ (ps : Params) (d : List α) (qp : List (String × String)) (rest : List (Page α)),
      get_records_run ps ({ data := d, next := some qp } :: rest)
        = (ps :: (get_records_run (updParams ps qp) rest).1,
           ((get_records_run (updParams ps qp) rest).2).map (d ++ ·)))
    ∧ (∀ (ps : Params) (qp : List (String × String)) (k v : String),
      (qp.map Prod.fst).Nodup → (k, v) ∈ qp →
      lookupKey k (updParams ps qp) = some (PVal.strV v))
    ∧ (∀ (ps : Params) (qp : List (String × String)) (k : String),
      k ∉ qp.map Prod.fst → lookupKey k (updParams ps qp) = lookupKey k ps) := by
  refine ⟨fun ps d rest => rfl, fun ps d qp rest => rfl, ?_, ?_⟩
  · intro ps qp k v hnd hmem
    exact lookupKey_updParams_mem qp ps k v hnd hmem
  · intro ps qp k h
    exact lookupKey_updParams_not_mem qp ps k h

/-- Claim C5, witness: with current parameters holding `page[offset] = 0`
and `filter[accountId] = "1"`, a next link carrying `page[offset]=2`
makes the next request use `page[offset] = "2"` while keeping
`filter[accountId] = "1"`. -/
theorem C5_witness :
    lookupKey "page[offset]"
        (updParams [("page[offset]", PVal.intV 0), ("filter[accountId]", PVal.strV "1")]
          [("page[offset]", "2")]) = some (PVal.strV "2")
    ∧ lookupKey "filter[accountId]"
        (updParams [("page[offset]", PVal.intV 0), ("filter[accountId]", PVal.strV "1")]
          [("page[offset]", "2")]) = some (PVal.strV "1") := by
  refine ⟨(C5_theorem (α := Nat)).2.2.1 _ _ _ _ (by decide) (by decide),
    (C5_theorem (α := Nat)).2.2.2 _ _ _ (by decide)⟩

/-- Claim C6, confirmed: `OptiplyAuthenticator.get_auth_headers`
refreshes exactly when no access token is held, no expiry instant is
held (an expiry-less token is invalid per `is_token_valid`), or the
remaining lifetime `expires_at - now` has dropped below the 300-second
safety margin; that margin lies in the recommended 120-300 second
range; and once a refresh stores `expires_at = now + expires_in`, no
call up to and including the instant `expires_at - 300` triggers
another refresh. -/
theorem C6_theorem :
    (∀ (s : AuthState) (now : Int) (fresh : String × Int),
      (get_auth_headers s now fresh).1
        = if refresh_triggered s now then update_access_token fresh.1 fresh.2 now else s)
    ∧ (∀ (tok : Option String) (ea : Option Int) (now : Int),
      refresh_triggered ⟨tok, ea⟩ now = true
        ↔ tok = none ∨ ea = none ∨ ∃ e, ea = some e ∧ e - now < 300)
    ∧ ((120 : Int) ≤ 300 ∧ (300 : Int) ≤ 300)
    ∧ (∀ (tokStr : String) (expiresIn now t : Int),
      t ≤ now + expiresIn - 300 →
      refresh_triggered (update_access_token tokStr expiresIn now) t = false) := by
  refine ⟨fun s now fresh => rfl, ?_, ⟨by norm_num, le_refl 300⟩, ?_⟩
  · intro tok ea now
    cases tok with
    | none => simp [refresh_triggered]
    | some s =>
      cases ea with
      | none => simp [refresh_triggered, is_token_valid]
      | some e =>
        simp [refresh_triggered, is_token_valid]
  · intro tokStr expiresIn now t ht
    simp [refresh_triggered, update_access_token, is_token_valid]
    omega

/-- Claim C6, witness: a token refreshed at time 1000 with
`expires_in = 3600` does not trigger a refresh at time 4300
(= expiry 4600 minus the 300-second margin). -/
theorem C6_witness :
    refresh_triggered (update_access_token "tok" 3600 1000) 4300 = false :=
  C6_theorem.2.2.2 "tok" 3600 1000 4300 (by norm_num)

/-- Claim C7, counterexample: `OptiplyAPI._update_token` stores
`time.time() + expires_in - 60`, not `now + expires_in` — at
`now = 1000`, `expires_in = 3600` the stored expiry is 4540, not 4600,
so a 60-second margin is subtracted at storage time in client.py. -/
theorem C7_counterexample :
    update_token_expiry 1000 3600 = 4540
    ∧ update_token_expiry 1000 3600 ≠ 1000 + 3600 := by
  refine ⟨by norm_num [update_token_expiry], by norm_num [update_token_expiry]⟩

/-- Claim C7, amended: `OptiplyAuthenticator.update_access_token`
(auth.py) stores the expiry as exactly `now + expires_in`, applying its
300-second margin only when the token is checked at use-time in
`is_token_valid`; `OptiplyAPI._update_token` (client.py), by contrast,
stores `now + expires_in - 60`, subtracting a 60-second safety margin at
storage time. -/
theorem C7_theorem :
    (∀ (tok : String) (expiresIn now : Int),
      (update_access_token tok expiresIn now).tokenExpiresAt = some (now + expiresIn))
    ∧ (∀ (now expiresIn : Int), update_token_expiry now expiresIn = now + expiresIn - 60)
    ∧ (∀ (tok : String) (ea now : Int),
      is_token_valid ⟨some tok, some ea⟩ now = !(ea - now < 300)) := by
  refine ⟨fun tok e now => rfl, fun now e => rfl, fun tok ea now => rfl⟩

/-- Claim C8, confirmed: for every record yielded by
`TapOptiplyStream.get_records`, when the record's `attributes` object
contains `updatedAt` the emitted record's top-level `updatedAt` equals
`attributes["updatedAt"]` (the attributes value wins over any
pre-existing top-level value) and every other field is unchanged; when
`attributes` is absent, is not an object, or lacks `updatedAt`, the
record is yielded unmodified. -/
theorem C8_theorem :
    (∀ (r attrs : List (String × JVal)) (v : JVal),
      lookupKey "attributes" r = some (JVal.obj attrs) →
      lookupKey "updatedAt" attrs = some v →
      lookupKey "updatedAt" (transform_record r) = some v
        ∧ ∀ k, k ≠ "updatedAt" → lookupKey k (transform_record r) = lookupKey k r)
    ∧ (∀ r : List (String × JVal),
      (match lookupKey "attributes" r with
        | some (JVal.obj attrs) => lookupKey "updatedAt" attrs = none
        | _ => True) →
      transform_record r = r) := by
  constructor
  · intro r attrs v h1 h2
    have htr : transform_record r = setKey r "updatedAt" v := by
      simp [transform_record, h1, h2]
    rw [htr]
    exact ⟨lookupKey_setKey_self r "updatedAt" v,
      fun k hk => lookupKey_setKey_ne r "updatedAt" k v hk⟩
  · intro r h
    cases hattr : lookupKey "attributes" r with
    | none => simp [transform_record, hattr]
    | some val =>
      cases val with
      | str s => simp [transform_record, hattr]
      | int n => simp [transform_record, hattr]
      | obj attrs =>
        rw [hattr] at h
        have h' : lookupKey "updatedAt" attrs = none := h
        simp [transform_record, hattr, h']

/-- Example raw record whose `attributes` object carries `updatedAt`
and which also has a stale top-level `updatedAt`. -/
def recordWithAttrs : List (String × JVal) :=
  [("id", JVal.str "1"), ("updatedAt", JVal.str "old"),
   ("attributes", JVal.obj [("updatedAt", JVal.str "2024-03-15T00:00:00Z")])]

/-- Example raw record whose `attributes` object lacks `updatedAt`. -/
def recordNoUpdatedAt : List (String × JVal) :=
  [("id", JVal.str "2"), ("attributes", JVal.obj [("name", JVal.str "x")])]

/-- Claim C8, witness: on `recordWithAttrs` the emitted top-level
`updatedAt` is the attributes value and `id` is untouched; on
`recordNoUpdatedAt` the record passes through unmodified. -/
theorem C8_witness :
    lookupKey "updatedAt" (transform_record recordWithAttrs)
      = some (JVal.str "2024-03-15T00:00:00Z")
    ∧ lookupKey "id" (transform_record recordWithAttrs) = lookupKey "id" recordWithAttrs
    ∧ transform_record recordNoUpdatedAt = recordNoUpdatedAt := by
  refine ⟨(C8_theorem.1 recordWithAttrs [("updatedAt", JVal.str "2024-03-15T00:00:00Z")]
      (JVal.str "2024-03-15T00:00:00Z") rfl rfl).1,
    (C8_theorem.1 recordWithAttrs [("updatedAt", JVal.str "2024-03-15T00:00:00Z")]
      (JVal.str "2024-03-15T00:00:00Z") rfl rfl).2 "id" (by decide),
    C8_theorem.2 recordNoUpdatedAt rfl⟩

/-- A page with its `links` information blanked out: only the `data`
list is kept. -/
def stripNext {α : Type} (p : Page α) : Page α :=
  { data := p.data, next := none }

/-- The fixed-page-size loop of `get_products` never reads the `next`
field of a page: its run is unchanged when every page's links are
blanked out. -/
theorem get_products_run_ignores_next {α : Type} :
    ∀ (pages : List (Page α)) (off : Nat),
      get_products_run off (pages.map stripNext) = get_products_run off pages := by
  intro pages
  induction pages with
  | nil =>
    intro off
    rfl
  | cons p t ih =>
    intro off
    by_cases hp : p.data.length < 25
    · simp [get_products_run, stripNext, hp]
    · simp [get_products_run, stripNext, hp, ih (off + 25)]

/-- Run of the `get_products` loop over pages that are full (at least 25
records) up to the first short page: it stops at that page, concatenates
the records seen, and requests offsets advancing by 25. -/
theorem get_products_run_short_page {α : Type} (p : Page α) (hp : p.data.length < 25)
    (rest : List (Page α)) :
    ∀ (front : List (Page α)) (off : Nat),
      (∀ q ∈ front, 25 ≤ q.data.length) →
      get_products_run off (front ++ p :: rest)
        = ((List.range (front.length + 1)).map (fun i => off + 25 * i),
           some ((front.map Page.data).flatten ++ p.data)) := by
  intro front
  induction front with
  | nil =>
    intro off _
    simp [get_products_run, hp, List.range_succ]
  | cons q t ih =>
    intro off hall
    have hq : 25 ≤ q.data.length := hall q (by simp)
    have ht : ∀ x ∈ t, 25 ≤ x.data.length := fun x hx => hall x (by simp [hx])
    have hnotlt : ¬ q.data.length < 25 := by omega
    have hmap : (List.range (t.length + 1 + 1)).map (fun i => off + 25 * i)
        = off :: (List.range (t.length + 1)).map (fun i => off + 25 + 25 * i) := by
      rw [List.range_succ_eq_map, List.map_cons, List.map_map]
      refine congrArg₂ List.cons (by omega) ?_
      refine List.map_congr_left fun a _ => ?_
      simp [Function.comp, Nat.mul_succ]
      omega
    simp only [List.cons_append, get_products_run, hnotlt, if_false, List.append_eq]
    rw [ih (off + 25) ht]
    simp [hmap, List.append_assoc]

/-- Claim C9, confirmed: for every mocked page sequence whose first
short page (strictly fewer than the fixed page size of 25 records) is
preceded only by full pages, `OptiplyAPI.get_products` terminates with
that short page, yields exactly the records of all pages up to and
including it, requests successive pages with `page[offset]` equal to
0, 25, 50, ..., advancing by the page size, and never consults
`links.next` (blanking every page's links leaves the run unchanged). -/
theorem C9_theorem {α : Type} (front : List (Page α)) (p : Page α) (rest : List (Page α))
    (hfront : ∀ q ∈ front, 25 ≤ q.data.length) (hp : p.data.length < 25) :
    get_products_run 0 (front ++ p :: rest)
      = ((List.range (front.length + 1)).map (fun i => 25 * i),
         some (((front ++ [p]).map Page.data).flatten))
    ∧ (∀ (pages : List (Page α)) (off : Nat),
        get_products_run off (pages.map stripNext) = get_products_run off pages) := by
  constructor
  · rw [get_products_run_short_page p hp rest front 0 hfront]
    simp
  · exact fun pages off => get_products_run_ignores_next pages off

/-- Claim C9, witness: a full page of 25 records followed by a short
page of 3 records is fetched at offsets 0 and 25 and yields all 28
records. -/
theorem C9_witness :
    get_products_run 0 ([⟨List.replicate 25 0, none⟩, ⟨[1, 2, 3], none⟩] : List (Page Nat))
      = ([0, 25], some (List.replicate 25 0 ++ [1, 2, 3])) := by
  have h := (C9_theorem [⟨List.replicate 25 (0 : Nat), none⟩] ⟨[1, 2, 3], none⟩ []
    (by simp) (by simp)).1
  simpa [List.range_succ] using h

/-- Splitting on underscores leaves an underscore-free string whole. -/
theorem splitUnderscore_no_underscore :
    ∀ s : List Char, '_' ∉ s → splitUnderscore s = [s] := by
  intro s
  induction s with
  | nil =>
    intro _
    rfl
  | cons c cs ih =>
    intro h
    simp only [List.mem_cons, not_or] at h
    have hc : ¬(c = '_') := fun he => h.1 he.symm
    simp [splitUnderscore, hc, ih h.2]

/-- A defaulted key reads back as its prior value when present, else as
the default. -/
theorem lookupKey_withDefault_self (ps : Params) (k : String) (v : PVal) :
    lookupKey k (withDefault ps k v) = some ((lookupKey k ps).getD v) := by
  unfold withDefault
  cases h : lookupKey k ps with
  | some w => simp [h]
  | none => simp [h, lookupKey_setKey_self]

/-- Defaulting one key leaves lookups of other keys unchanged. -/
theorem lookupKey_withDefault_ne (ps : Params) (k k₁ : String) (v : PVal)
    (h : k₁ ≠ k) : lookupKey k₁ (withDefault ps k v) = lookupKey k₁ ps := by
  unfold withDefault
  cases hh : lookupKey k ps with
  | some w => simp [hh]
  | none => simp [hh, lookupKey_setKey_ne _ _ _ _ h]

/-- Claim C10, confirmed: `OptiplyAPI.get_records` derives the endpoint
URL by camel-casing the snake_case stream name and appending it to the
base URL (`sell_order_lines` maps to `<base_url>/sellOrderLines`, and a
name without underscores maps to itself); and before the first request
`page[limit]` defaults to 50 and `page[offset]` to 0 when absent, while
caller-supplied values for either key are preserved. -/
theorem C10_theorem :
    (∀ baseUrl : String,
      endpointUrl baseUrl "sell_order_lines" = baseUrl ++ "/" ++ "sellOrderLines")
    ∧ (∀ s : List Char, '_' ∉ s → toCamel s = s)
    ∧ (∀ ps : Params, lookupKey "page[limit]" ps = none →
        lookupKey "page[limit]" (init_params ps) = some (PVal.intV 50))
    ∧ (∀ (ps : Params) (v : PVal), lookupKey "page[limit]" ps = some v →
        lookupKey "page[limit]" (init_params ps) = some v)
    ∧ (∀ ps : Params, lookupKey "page[offset]" ps = none →
        lookupKey "page[offset]" (init_params ps) = some (PVal.intV 0))
    ∧ (∀ (ps : Params) (v : PVal), lookupKey "page[offset]" ps = some v →
        lookupKey "page[offset]" (init_params ps) = some v) := by
  refine ⟨?_, ?_, ?_, ?_, ?_, ?_⟩
  · intro baseUrl
    exact congrArg (fun t => baseUrl ++ "/" ++ t) (by decide)
  · intro s h
    simp [toCamel, splitUnderscore_no_underscore s h]
  · intro ps h
    unfold init_params
    rw [lookupKey_withDefault_ne _ _ _ _ (by decide), lookupKey_withDefault_self, h]
    rfl
  · intro ps v h
    unfold init_params
    rw [lookupKey_withDefault_ne _ _ _ _ (by decide), lookupKey_withDefault_self, h]
    rfl
  · intro ps h
    unfold init_params
    rw [lookupKey_withDefault_self, lookupKey_withDefault_ne _ _ _ _ (by decide), h]
    rfl
  · intro ps v h
    unfold init_params
    rw [lookupKey_withDefault_self, lookupKey_withDefault_ne _ _ _ _ (by decide), h]
    rfl

/-- Claim C10, witness: the production base URL with stream
`sell_order_lines` yields `.../sellOrderLines`; `products` maps to
itself; empty caller parameters get `page[limit] = 50`; and a
caller-supplied `page[offset] = 7` is preserved. -/
theorem C10_witness :
    endpointUrl "https://api.optiply.com/v1" "sell_order_lines"
      = "https://api.optiply.com/v1" ++ "/" ++ "sellOrderLines"
    ∧ toCamel "products".toList = "products".toList
    ∧ lookupKey "page[limit]" (init_params []) = some (PVal.intV 50)
    ∧ lookupKey "page[offset]" (init_params [("page[offset]", PVal.intV 7)])
        = some (PVal.intV 7) := by
  refine ⟨C10_theorem.1 _, C10_theorem.2.1 _ (by decide),
    C10_theorem.2.2.1 [] rfl, C10_theorem.2.2.2.2.2 _ _ rfl⟩
